import Mathlib

/-!
Verification of the crewai-guardrails example repository.

The repository is a set of example scripts combining a multi-agent task
orchestration layer (CrewAI) with an output-validation layer (Guardrails AI).
This file shallowly embeds the validation-relevant parts of the scripts:

* the custom sentence-count validator of `crew_nv1/main.py`;
* the empty-output short-circuit and first-failure-wins evaluation pattern of
  the task callbacks (`crew_nv2/with-hub.py`, `crew_nv3/main.py`,
  `crew_nv4/main.py`, `crew_nv5/main.py`);
* the code-fence stripping of `crew_nv5/main.py`;
* the web scraping tool `crew_nv5/custom_tool.py`;
* the exit behaviour of each example's `__main__` block;
* the reask orchestration and enum-membership check, which live in the
  external Guardrails library and are modelled from the specification.

Text is modelled as `List Char`; Python's `str.strip` family is embedded
explicitly.
-/

/-- Raw text, as produced and consumed by the scripts (Python `str`). -/
abbrev Str := List Char

/-- Python's default whitespace set for `str.strip()` (ASCII part, which is
the only part exercised by the scripts): space, tab, newline, carriage
return, vertical tab, form feed. -/
def isPySpace (c : Char) : Bool :=
  c = ' ' || c = '\t' || c = '\n' || c = '\r' || c = '\x0b' || c = '\x0c'

/-- Python `s.strip(chars)` / `s.strip()`: remove the longest run of
characters satisfying `p` from both ends. -/
def pyStrip (p : Char → Bool) (s : Str) : Str :=
  (s.dropWhile p).rdropWhile p

/-- The sentence delimiters of `HasExactlyNSentences` in `crew_nv1/main.py`:
the regex character class `[.!?]`. -/
def isSentenceDelim (c : Char) : Bool :=
  c = '.' || c = '!' || c = '?'

/-- Embedding of `re.split(r"[.!?]", value)`: split `value` at every
delimiter character, keeping empty fragments (as Python's `re.split` does). -/
def splitSentences : Str → List Str
  | [] => [[]]
  | c :: rest =>
    if isSentenceDelim c then
      [] :: splitSentences rest
    else
      match splitSentences rest with
      | [] => [[c]]
      | f :: fs => (c :: f) :: fs

/-- The fragment filter `if s.strip()` of `crew_nv1/main.py` line 44: a
fragment is kept when stripping whitespace leaves it non-empty. -/
def keepFragment (s : Str) : Bool :=
  !(pyStrip isPySpace s).isEmpty

/-- `len([s for s in re.split(r"[.!?]", value) if s.strip()])` from
`HasExactlyNSentences.validate`. -/
def sentenceCount (value : Str) : Nat :=
  ((splitSentences value).filter keepFragment).length

/-- The Guardrails validation result type imported by `crew_nv1/main.py`
(`PassResult`/`FailResult` from
`guardrails.classes.validation.validation_result`). -/
inductive ValidationResult where
  | PassResult : ValidationResult
  | FailResult (errorMessage : Str) : ValidationResult
deriving DecidableEq, Repr

/-- Whether a validation result is a failed-validation outcome
(`FailResult`). -/
def ValidationResult.isFail : ValidationResult → Bool
  | .PassResult => false
  | .FailResult _ => true

/-- A Python value as it may reach `HasExactlyNSentences.validate`: a string,
or some non-string value (`isinstance(value, str)` is `False`). -/
inductive PyValue where
  | strVal (s : Str) : PyValue
  | intVal (n : Int) : PyValue
  | noneVal : PyValue
deriving DecidableEq, Repr

/-- The failure message of `HasExactlyNSentences.validate`: the Python
f-string "Esperava ... frases, mas encontrou ...." with `n` and `count`
interpolated. -/
def sentenceFailMsg (n count : Nat) : Str :=
  "Esperava ".toList ++ (toString n).toList
    ++ " frases, mas encontrou ".toList ++ (toString count).toList ++ ['.']

/-- Embedding of `HasExactlyNSentences.validate` (`crew_nv1/main.py`,
lines 36-54): a non-string input yields
`FailResult("Input should be a string.")`; a string passes iff its sentence
count is exactly `n`, and otherwise fails with a message reporting the count
found. -/
def hasExactlyNSentencesValidate (n : Nat) (value : PyValue) : ValidationResult :=
  match value with
  | .strVal s =>
    let count := sentenceCount s
    if count = n then .PassResult
    else .FailResult (sentenceFailMsg n count)
  | .intVal _ => .FailResult "Input should be a string.".toList
  | .noneVal => .FailResult "Input should be a string.".toList

/-- A step-level validation outcome, as in the specification's data model:
`Passed(value)`, `FailedTerminal(reason)` or
`FailedRetryable(reason, correctiveHint)`. In the scripts, `Passed`
corresponds to the callback returning normally, and the failure variants to
the callback raising (terminal) or Guardrails suggesting a reask
(retryable). -/
inductive VOutcome where
  | passed (value : Str) : VOutcome
  | failedTerminal (reason : Str) : VOutcome
  | failedRetryable (reason : Str) (hint : Str) : VOutcome
deriving DecidableEq, Repr

/-- Run a list of validator checks on a candidate text in order, first
failure wins (the callbacks configure `on_fail="exception"`, so the first
failing validator raises and later ones never run). The second component
counts how many checks were invoked. -/
def runChecks : List (Str → ValidationResult) → Str → Nat → VOutcome × Nat
  | [], raw, k => (.passed raw, k)
  | c :: cs, raw, k =>
    match c raw with
    | .PassResult => runChecks cs raw (k + 1)
    | .FailResult m => (.failedTerminal m, k + 1)

/-- The Step Outcome Evaluator as implemented by the task callbacks
(`validate_sentiment_analysis`, `validate_report_contains_footer`, ...):
`if not raw_output_str: ... return` skips validation entirely on empty
output, otherwise the guard's validators run in order. The `Nat` component
counts validator invocations (the claims' counter instrumentation). -/
def evaluateStep (checks : List (Str → ValidationResult)) (raw : Str) :
    VOutcome × Nat :=
  if raw.isEmpty then (.passed raw, 0)
  else runChecks checks raw 0

/-- The state of a `HasExactlyNSentences` validator instance: the only
mutable attribute its `validate` method can see is `self._n` (set once in
`__init__` and never reassigned). -/
structure HasExactlyNSentencesObj where
  n : Nat
deriving DecidableEq, Repr

/-- `HasExactlyNSentences.validate` with the instance state threaded
explicitly: the method body contains no assignment to `self`, so the
returned state is the input state unchanged. -/
def hasNValidateSt (self : HasExactlyNSentencesObj) (value : PyValue) :
    ValidationResult × HasExactlyNSentencesObj :=
  (hasExactlyNSentencesValidate self.n value, self)

/-- Run a rule set of (stateful) `HasExactlyNSentences` validators in order,
first failure wins, threading each validator's instance state and returning
the updated states. -/
def runStatefulChecks : List HasExactlyNSentencesObj → Str →
    VOutcome × List HasExactlyNSentencesObj
  | [], raw => (.passed raw, [])
  | v :: vs, raw =>
    let (res, v') := hasNValidateSt v (.strVal raw)
    match res with
    | .PassResult =>
      let (o, vs') := runStatefulChecks vs raw
      (o, v' :: vs')
    | .FailResult m => (.failedTerminal m, v' :: vs)

/-- The Step Outcome Evaluator over stateful validator instances: empty
output short-circuits to `passed`, otherwise the rule set runs with its
instance states threaded through. -/
def evaluateStatefulStep (vs : List HasExactlyNSentencesObj) (raw : Str) :
    VOutcome × List HasExactlyNSentencesObj :=
  if raw.isEmpty then (.passed raw, vs)
  else runStatefulChecks vs raw

/-- A generation request: a prompt sent to the model (specification §3).
Reask extends the prompt with the corrective hint of the failed outcome. -/
structure GenerationRequest where
  prompt : Str
deriving DecidableEq, Repr

/-- The final state of one step under the reask orchestration. -/
inductive ReaskOutcome where
  | accepted (value : Str) : ReaskOutcome
  | terminal (reason : Str) : ReaskOutcome
deriving DecidableEq, Repr

/-- Modelled from the spec: the Reask Orchestrator state machine of §4.4 is
not implemented under `src/` (the `crew_nv3` callback only raises when
Guardrails suggests a reask; the loop itself lives in the external
Guardrails library). From `Pending`, the model is invoked once; `Passed`
goes to `Accepted`, `FailedTerminal` to `Terminal`, and `FailedRetryable`
re-enters `Pending` with the prompt extended by the corrective hint while
retries remain (`remaining` is `max-retries` minus attempts so far),
otherwise goes to `Terminal` with the last failure reason. The first
component counts total generation attempts (model invocations). -/
def reaskFrom (model : GenerationRequest → Str) (check : Str → VOutcome)
    (req : GenerationRequest) (remaining : Nat) : Nat × ReaskOutcome :=
  match check (model req) with
    | .passed v => (1, .accepted v)
    | .failedTerminal r => (1, .terminal r)
    | .failedRetryable r hint =>
      match remaining with
      | 0 => (1, .terminal r)
      | rem + 1 =>
        let (k, o) := reaskFrom model check ⟨req.prompt ++ hint⟩ rem
        (k + 1, o)

/-- Modelled from the spec: run one step under the Reask Orchestrator with
retry budget `maxRetries`, returning the total number of generation
attempts and the sealed outcome. -/
def reaskOrchestrate (model : GenerationRequest → Str)
    (check : Str → VOutcome) (maxRetries : Nat) (req : GenerationRequest) :
    Nat × ReaskOutcome :=
  reaskFrom model check req maxRetries

/-- Modelled from the spec: the corrective hint of the enum-membership
validator (§4.4: specific enough to be actionable, e.g. "output must be
exactly one of ...; got ..."). The allowed values are listed verbatim,
comma-separated. -/
def enumHint (allowed : List Str) (value : Str) : Str :=
  "output must be exactly one of ".toList
    ++ List.intercalate ", ".toList allowed
    ++ "; got ".toList ++ value

/-- Modelled from the spec: the enum-membership validator (§4.1), realised
in the scripts by the external hub validator
`ValidChoices(choices=..., on_fail="reask")`, which is not under `src/`.
It passes iff the field value is exactly one of the allowed values
(case-sensitive); otherwise, under the reask policy of `crew_nv3/main.py`,
the outcome is `FailedRetryable` carrying the corrective hint. -/
def enumMembershipCheck (allowed : List Str) (value : Str) : VOutcome :=
  if value ∈ allowed then .passed value
  else .failedRetryable (enumHint allowed value) (enumHint allowed value)

/-- The character set of Python `s.strip('```json')` in `crew_nv5/main.py`
line 93: `str.strip` treats its argument as a set of characters, here
the backtick together with the letters of "json". -/
def isFenceJsonChar (c : Char) : Bool :=
  c = '`' || c = 'j' || c = 's' || c = 'o' || c = 'n'

/-- The character set of Python `s.strip('```')`: just the backtick. -/
def isBacktick (c : Char) : Bool :=
  c = '`'

/-- Embedding of `raw_output_str.strip().strip('```json').strip('```').strip()`
(`crew_nv5/main.py` line 93), the preparation of the raw model output
before the structural decode `guard.parse(json_output_str)`. -/
def prepareJsonStr (raw : Str) : Str :=
  pyStrip isPySpace (pyStrip isBacktick (pyStrip isFenceJsonChar (pyStrip isPySpace raw)))

/-- The observable part of one `requests.get` interaction in
`WebsiteContentScraperTool._run` (`crew_nv5/custom_tool.py`): either the
request raises a `RequestException` (network error), or a response with an
HTTP status arrives; `hasBody` records whether `soup.find('main') or
soup.find('article') or soup.find('body')` finds a tag, and `content` is
the cleaned text `main_content.get_text(...)` after the blank-line
collapsing, before truncation. -/
structure ScrapeWorld where
  netError : Bool
  status : Nat
  hasBody : Bool
  content : Str
deriving DecidableEq, Repr

/-- `response.raise_for_status()` raises `requests.exceptions.HTTPError`
exactly for client-error and server-error statuses, i.e. 400-599; other
statuses (including the 3xx ones that survive redirect resolution) do not
raise. -/
def raiseForStatusErrors (status : Nat) : Bool :=
  (400 ≤ status && status < 500) || (500 ≤ status && status < 600)

/-- The `"[Tool Error]"` marker that every failure return of `_run` starts
with. -/
def toolErrorMarker : Str := "[Tool Error]".toList

/-- Whether a tool return value begins with the `"[Tool Error]"` marker
(the success test of `teste_tool.py`:
`not result.startswith("[Tool Error]")`). -/
def startsWithMarker (r : Str) : Bool :=
  toolErrorMarker.isPrefixOf r

/-- Embedding of `WebsiteContentScraperTool._run` (`crew_nv5/custom_tool.py`,
lines 41-88), instrumented with a tag recording whether an error-return
statement was taken (`true`) or the scraped-content return (`false`):
network errors and HTTP 4xx/5xx are caught by the `RequestException`
handler; a missing `main`/`article`/`body` tag, and content whose stripped
length after truncation to 8000 characters is below 50, return error
strings; otherwise the truncated raw content is returned. The generic
`except Exception` handler at line 87 also returns an error string, so
`_run` never raises; totality of this function reflects that. -/
def toolRunTagged (w : ScrapeWorld) : Bool × Str :=
  if w.netError then
    (true, toolErrorMarker ++ " Erro de Rede ao acessar a URL".toList)
  else if raiseForStatusErrors w.status then
    (true, toolErrorMarker ++ " Erro de Rede ao acessar a URL".toList)
  else if !w.hasBody then
    (true, toolErrorMarker ++ " Tag 'body' não encontrada".toList)
  else
    let rawContent := w.content.take 8000
    if (pyStrip isPySpace rawContent).length < 50 then
      (true, toolErrorMarker ++ " Conteúdo significativo não encontrado ou muito curto".toList)
    else
      (false, rawContent)

/-- The string actually returned by `_run`. -/
def toolRun (w : ScrapeWorld) : Str :=
  (toolRunTagged w).2

/-- The example entry points of the repository (`__main__` blocks). -/
inductive Script where
  | nv1Main | nv1Hub | nv2Main | nv2Hub | nv3Main | nv3Hub | nv4Main | nv5Main
deriving DecidableEq, Repr

/-- What happens during one run of an example, abstracted to the events its
`__main__` block distinguishes: `kickoffError` (the crew/model invocation
raises — for the scripts whose validation runs in a task callback, a
validation failure also surfaces here, since the callback's exception
propagates out of `crew.kickoff`); `postValidationError` (for the two
`crew_nv1` scripts only: the separate `guard.validate` call after kickoff
raises on a terminal validation failure); `ok` (kickoff and validation
succeed). -/
inductive RunEvent where
  | kickoffError | postValidationError | ok
deriving DecidableEq, Repr

/-- The observable end of a script run: the process exit status, whether a
diagnostic was printed, and whether the validated final output was
printed. -/
structure ScriptResult where
  exitCode : Nat
  printsDiagnostic : Bool
  printsFinalOutput : Bool
deriving DecidableEq, Repr

/-- Embedding of the `__main__` control flow of each example script.
`crew_nv1/main.py` and `crew_nv1/with-hub.py` run validation after
`kickoff` in a separate `try` whose `except` prints the failure details and
falls off the end of the script (exit status 0, lines 138-141 resp.
138-141); every script calls `sys.exit(1)` in the `except` around
`crew.kickoff`; on success every script prints the validated final
output. For the scripts whose validation happens inside a task callback, a
terminal validation failure reaches `__main__` as a kickoff exception, so
`postValidationError` cannot occur there and is mapped to the same
`except`-around-kickoff path. -/
def runScript : Script → RunEvent → ScriptResult
  | .nv1Main, .kickoffError => ⟨1, true, false⟩
  | .nv1Main, .postValidationError => ⟨0, true, false⟩
  | .nv1Main, .ok => ⟨0, false, true⟩
  | .nv1Hub, .kickoffError => ⟨1, true, false⟩
  | .nv1Hub, .postValidationError => ⟨0, true, false⟩
  | .nv1Hub, .ok => ⟨0, false, true⟩
  | .nv2Main, .kickoffError => ⟨1, true, false⟩
  | .nv2Main, .postValidationError => ⟨1, true, false⟩
  | .nv2Main, .ok => ⟨0, false, true⟩
  | .nv2Hub, .kickoffError => ⟨1, true, false⟩
  | .nv2Hub, .postValidationError => ⟨1, true, false⟩
  | .nv2Hub, .ok => ⟨0, false, true⟩
  | .nv3Main, .kickoffError => ⟨1, true, false⟩
  | .nv3Main, .postValidationError => ⟨1, true, false⟩
  | .nv3Main, .ok => ⟨0, false, true⟩
  | .nv3Hub, .kickoffError => ⟨1, true, false⟩
  | .nv3Hub, .postValidationError => ⟨1, true, false⟩
  | .nv3Hub, .ok => ⟨0, false, true⟩
  | .nv4Main, .kickoffError => ⟨1, true, false⟩
  | .nv4Main, .postValidationError => ⟨1, true, false⟩
  | .nv4Main, .ok => ⟨0, false, true⟩
  | .nv5Main, .kickoffError => ⟨1, true, false⟩
  | .nv5Main, .postValidationError => ⟨1, true, false⟩
  | .nv5Main, .ok => ⟨0, false, true⟩

/-- The behaviour of the example entry points as the specification's process
boundary sentence would amend to: non-zero exit on crew/model failure
everywhere; non-zero exit on terminal validation failure everywhere except
the two level-1 scripts, which print the failure diagnostic and exit with
status 0; on success the validated final output is printed. -/
def expectedScriptResult : Script → RunEvent → ScriptResult
  | _, .kickoffError => ⟨1, true, false⟩
  | .nv1Main, .postValidationError => ⟨0, true, false⟩
  | .nv1Hub, .postValidationError => ⟨0, true, false⟩
  | _, .postValidationError => ⟨1, true, false⟩
  | _, .ok => ⟨0, false, true⟩

theorem dropWhile_append_all {p : Char → Bool} {a : Str} (l : Str)
    (h : ∀ x ∈ a, p x = true) : (a ++ l).dropWhile p = l.dropWhile p := by
  induction a with
  | nil => rfl
  | cons y ys ih =>
    simp only [List.cons_append, List.dropWhile_cons, h y (by simp), if_true]
    exact ih fun x hx => h x (by simp [hx])

theorem dropWhile_head_false {p : Char → Bool} {l : Str}
    (h : ∀ x, l.head? = some x → p x = false) : l.dropWhile p = l := by
  cases l with
  | nil => rfl
  | cons y ys => simp [List.dropWhile_cons, h y rfl]

theorem forall_head_false_append {p : Char → Bool} {b l : Str}
    (hb : ∀ x ∈ b, p x = false) (hl : ∀ x, l.head? = some x → p x = false) :
    ∀ x, (b ++ l).head? = some x → p x = false := by
  cases b with
  | nil => simpa using hl
  | cons y ys =>
    intro x hx
    simp only [List.cons_append, List.head?_cons, Option.some.injEq] at hx
    exact hx ▸ hb y (by simp)

theorem forall_getLast_false_append {p : Char → Bool} {c l : Str}
    (hc : ∀ x ∈ c, p x = false) (hl : ∀ x, l.getLast? = some x → p x = false) :
    ∀ x, (l ++ c).getLast? = some x → p x = false := by
  intro x hx
  rw [← List.head?_reverse, List.reverse_append] at hx
  exact forall_head_false_append (fun y hy => hc y (List.mem_reverse.mp hy))
    (fun y hy => hl y (by rwa [List.head?_reverse] at hy)) x hx

theorem pyStrip_sandwich {p : Char → Bool} {a b m : Str}
    (ha : ∀ x ∈ a, p x = true) (hb : ∀ x ∈ b, p x = true)
    (hm : m ≠ [])
    (hh : ∀ x, m.head? = some x → p x = false)
    (hg : ∀ x, m.getLast? = some x → p x = false) :
    pyStrip p (a ++ m ++ b) = m := by
  unfold pyStrip
  have h1 : (a ++ m ++ b).dropWhile p = m ++ b := by
    rw [List.append_assoc, dropWhile_append_all (m ++ b) ha]
    apply dropWhile_head_false
    intro x hx
    cases m with
    | nil => exact absurd rfl hm
    | cons y ys =>
      simp only [List.cons_append, List.head?_cons, Option.some.injEq] at hx
      exact hx ▸ hh y rfl
  rw [h1]
  unfold List.rdropWhile
  rw [List.reverse_append,
    dropWhile_append_all m.reverse (fun x hx => hb x (List.mem_reverse.mp hx)),
    dropWhile_head_false (fun x hx => hg x (by rwa [List.head?_reverse] at hx)),
    List.reverse_reverse]

theorem pyStrip_eq_self {p : Char → Bool} {m : Str}
    (hh : ∀ x, m.head? = some x → p x = false)
    (hg : ∀ x, m.getLast? = some x → p x = false) :
    pyStrip p m = m := by
  unfold pyStrip
  rw [dropWhile_head_false hh]
  unfold List.rdropWhile
  rw [dropWhile_head_false (fun x hx => hg x (by rwa [List.head?_reverse] at hx)),
    List.reverse_reverse]

theorem pySpace_not_fence {c : Char} (h : isPySpace c = true) :
    isFenceJsonChar c = false := by
  simp only [isPySpace, Bool.or_eq_true, decide_eq_true_eq] at h
  rcases h with ((((h | h) | h) | h) | h) | h <;> subst h <;> rfl

theorem pySpace_not_backtick {c : Char} (h : isPySpace c = true) :
    isBacktick c = false := by
  simp only [isPySpace, Bool.or_eq_true, decide_eq_true_eq] at h
  rcases h with ((((h | h) | h) | h) | h) | h <;> subst h <;> rfl

theorem runStatefulChecks_state (raw : Str) :
    ∀ vs, (runStatefulChecks vs raw).2 = vs := by
  intro vs
  induction vs with
  | nil => rfl
  | cons v vs ih =>
    simp only [runStatefulChecks, hasNValidateSt]
    cases hr : hasExactlyNSentencesValidate v.n (.strVal raw) with
    | PassResult => simp [hr, ih]
    | FailResult m => simp [hr]

theorem length_dropWhile_le (p : Char → Bool) (l : Str) :
    (l.dropWhile p).length ≤ l.length := by
  induction l with
  | nil => simp
  | cons c cs ih =>
    by_cases h : p c
    · rw [List.dropWhile_cons, if_pos h]
      exact le_trans ih (by simp)
    · rw [List.dropWhile_cons, if_neg h]

theorem pyStrip_length_le (p : Char → Bool) (l : Str) :
    (pyStrip p l).length ≤ l.length := by
  unfold pyStrip List.rdropWhile
  have h1 := length_dropWhile_le p (l.dropWhile p).reverse
  have h2 := length_dropWhile_le p l
  simp only [List.length_reverse] at h1 ⊢
  exact le_trans h1 h2

theorem isPrefixOf_append_self (l t : Str) : l.isPrefixOf (l ++ t) = true := by
  induction l with
  | nil => simp [List.isPrefixOf]
  | cons c cs ih => simp [List.isPrefixOf, ih]

theorem startsWithMarker_append (t : Str) :
    startsWithMarker (toolErrorMarker ++ t) = true :=
  isPrefixOf_append_self toolErrorMarker t

theorem status_range_raises {s : Nat} (h4 : 400 ≤ s) (h6 : s < 600) :
    raiseForStatusErrors s = true := by
  simp only [raiseForStatusErrors, Bool.or_eq_true, Bool.and_eq_true,
    decide_eq_true_eq]
  omega

/-- C1: under the Reask Orchestrator with max-retries = 1 and a validator
that always fails retryably, exactly 2 generation attempts are performed
(1 initial + 1 reask) and the step ends `Terminal`; the attempt counter
being exactly 2 means a 3rd generation attempt never occurs. -/
theorem claim_C1_reask_bound (model : GenerationRequest → Str)
    (check : Str → VOutcome) (req : GenerationRequest)
    (hfail : ∀ s, ∃ r h, check s = .failedRetryable r h) :
    ∃ r, reaskOrchestrate model check 1 req = (2, .terminal r) := by
  obtain ⟨r1, h1, e1⟩ := hfail (model req)
  obtain ⟨r2, h2, e2⟩ := hfail (model ⟨req.prompt ++ h1⟩)
  refine ⟨r2, ?_⟩
  unfold reaskOrchestrate
  rw [reaskFrom.eq_def, e1]
  dsimp only
  rw [reaskFrom.eq_def, e2]

/-- C1 witness: the always-failing validator instantiated concretely. -/
theorem claim_C1_reask_bound_witness :
    ∃ r, reaskOrchestrate (fun _ => []) (fun _ => .failedRetryable ['r'] ['h'])
      1 ⟨[]⟩ = (2, .terminal r) :=
  claim_C1_reask_bound _ _ _ (fun _ => ⟨['r'], ['h'], rfl⟩)

/-- C2: for all text `t` and all `n`, `HasExactlyNSentences.validate` passes
iff splitting `t` on `.`, `!`, `?` and discarding empty or whitespace-only
fragments yields exactly `n` fragments (`sentenceCount`); on failure the
result is a `FailResult` whose message is built around the actual count
found, which occurs verbatim inside the message. -/
theorem claim_C2_sentence_count (t : Str) (n : Nat) :
    (hasExactlyNSentencesValidate n (.strVal t) = .PassResult
      ↔ sentenceCount t = n)
    ∧ hasExactlyNSentencesValidate n (.strVal t)
      = (if sentenceCount t = n then .PassResult
         else .FailResult (sentenceFailMsg n (sentenceCount t)))
    ∧ (toString (sentenceCount t)).toList <:+: sentenceFailMsg n (sentenceCount t) := by
  refine ⟨?_, ?_, ?_⟩
  · by_cases h : sentenceCount t = n <;> simp [hasExactlyNSentencesValidate, h]
  · by_cases h : sentenceCount t = n <;> simp [hasExactlyNSentencesValidate, h]
  · exact ⟨"Esperava ".toList ++ (toString n).toList
      ++ " frases, mas encontrou ".toList, ['.'],
      by simp [sentenceFailMsg, List.append_assoc]⟩

/-- C3: on an empty generation result the Step Outcome Evaluator (the
callbacks' `if not raw_output_str: return` guard) skips evaluation
entirely: for every validator list the outcome is `passed` on the empty
text and the validator-invocation counter stays 0 — no check is ever
invoked. -/
theorem claim_C3_empty_short_circuit (checks : List (Str → ValidationResult)) :
    evaluateStep checks [] = (.passed [], 0) := rfl

/-- C4 counterexample: `crew_nv1/main.py` on a terminal validation failure
(the `guard.validate` call raising after a successful kickoff) prints the
diagnostic but exits with status 0, not a non-zero status — refuting the
claim that every example exits non-zero on an unrecoverable error. -/
theorem claim_C4_counterexample :
    (runScript Script.nv1Main RunEvent.postValidationError).exitCode = 0
    ∧ (runScript Script.nv1Main RunEvent.postValidationError).printsDiagnostic = true := by
  decide

/-- C4 amended: every example exits with status 1 on a crew/model failure
and prints a diagnostic; every example except the two level-1 scripts
(`crew_nv1/main.py`, `crew_nv1/with-hub.py`) also exits with status 1 on a
terminal validation failure, while the level-1 scripts print the diagnostic
and exit with status 0; on success every example prints the validated final
output and exits 0. -/
theorem claim_C4_amended :
    ∀ (s : Script) (e : RunEvent), runScript s e = expectedScriptResult s e := by
  intro s e
  cases s <;> cases e <;> rfl

/-- C5: the extraction preparation of `crew_nv5/main.py`
(`.strip().strip('```json').strip('```').strip()`) maps any JSON object
text `w` (non-empty, first character `{`, last character `}`) wrapped in
triple-backtick fences with a `json` language tag and surrounding
whitespace to exactly `w`, and maps bare `w` to `w`; hence the structural
decode receives the same string, and decodes the same value, in both
cases. -/
theorem claim_C5_fence_strip (a b c d w : Str)
    (hA : ∀ x ∈ a, isPySpace x = true) (hB : ∀ x ∈ b, isPySpace x = true)
    (hC : ∀ x ∈ c, isPySpace x = true) (hD : ∀ x ∈ d, isPySpace x = true)
    (hw : w ≠ []) (hwh : w.head? = some '{') (hwl : w.getLast? = some '}') :
    prepareJsonStr (a ++ "```json".toList ++ b ++ w ++ c ++ "```".toList ++ d) = w
      ∧ prepareJsonStr w = w := by
  have hhW : ∀ x, w.head? = some x → isPySpace x = false := by
    intro x hx; rw [hwh] at hx; cases hx; rfl
  have hgW : ∀ x, w.getLast? = some x → isPySpace x = false := by
    intro x hx; rw [hwl] at hx; cases hx; rfl
  constructor
  · -- stage 1: outer whitespace strip
    have e0 : a ++ "```json".toList ++ b ++ w ++ c ++ "```".toList ++ d
        = a ++ ("```json".toList ++ b ++ w ++ c ++ "```".toList) ++ d := by
      simp [List.append_assoc]
    have h1 : pyStrip isPySpace
        (a ++ "```json".toList ++ b ++ w ++ c ++ "```".toList ++ d)
        = "```json".toList ++ b ++ w ++ c ++ "```".toList := by
      rw [e0]
      apply pyStrip_sandwich hA hD
      · simp
      · intro x hx
        simp only [String.toList, List.cons_append, List.head?_cons,
          Option.some.injEq] at hx
        exact hx ▸ rfl
      · intro x hx
        rw [List.getLast?_append_of_ne_nil _ (by simp)] at hx
        simp only [String.toList] at hx
        cases hx
        rfl
    -- stage 2: strip the '```json' character set
    have h2 : pyStrip isFenceJsonChar
        ("```json".toList ++ b ++ w ++ c ++ "```".toList) = b ++ w ++ c := by
      have e1 : "```json".toList ++ b ++ w ++ c ++ "```".toList
          = "```json".toList ++ (b ++ w ++ c) ++ "```".toList := by
        simp [List.append_assoc]
      rw [e1]
      apply pyStrip_sandwich (by decide) (by decide)
      · simp [hw]
      · have hbm : b ++ w ++ c = b ++ (w ++ c) := by simp [List.append_assoc]
        rw [hbm]
        apply forall_head_false_append (fun x hx => pySpace_not_fence (hB x hx))
        intro x hx
        rw [List.head?_append_of_ne_nil w hw] at hx
        rw [hwh] at hx; cases hx; rfl
      · apply forall_getLast_false_append (fun x hx => pySpace_not_fence (hC x hx))
        intro x hx
        rw [List.getLast?_append_of_ne_nil _ hw] at hx
        rw [hwl] at hx; cases hx; rfl
    -- heads/lasts of b ++ w ++ c for the remaining stages
    have hhM : ∀ (p : Char → Bool), (∀ x, isPySpace x = true → p x = false) →
        (p '{' = false) →
        ∀ x, (b ++ w ++ c).head? = some x → p x = false := by
      intro p hsp hbr x hx
      have hbm : b ++ w ++ c = b ++ (w ++ c) := by simp [List.append_assoc]
      rw [hbm] at hx
      refine forall_head_false_append (fun y hy => hsp y (hB y hy)) ?_ x hx
      intro y hy
      rw [List.head?_append_of_ne_nil w hw] at hy
      rw [hwh] at hy; cases hy; exact hbr
    have hgM : ∀ (p : Char → Bool), (∀ x, isPySpace x = true → p x = false) →
        (p '}' = false) →
        ∀ x, (b ++ w ++ c).getLast? = some x → p x = false := by
      intro p hsp hbr x hx
      refine forall_getLast_false_append (fun y hy => hsp y (hC y hy)) ?_ x hx
      intro y hy
      rw [List.getLast?_append_of_ne_nil _ hw] at hy
      rw [hwl] at hy; cases hy; exact hbr
    -- stage 3: backtick strip is a no-op
    have h3 : pyStrip isBacktick (b ++ w ++ c) = b ++ w ++ c :=
      pyStrip_eq_self
        (hhM _ (fun x hx => pySpace_not_backtick hx) rfl)
        (hgM _ (fun x hx => pySpace_not_backtick hx) rfl)
    -- stage 4: inner whitespace strip
    have h4 : pyStrip isPySpace (b ++ w ++ c) = w :=
      pyStrip_sandwich hB hC hw hhW hgW
    unfold prepareJsonStr
    rw [h1, h2, h3, h4]
  · have s1 : pyStrip isPySpace w = w := pyStrip_eq_self hhW hgW
    have s2 : pyStrip isFenceJsonChar w = w :=
      pyStrip_eq_self
        (fun x hx => by rw [hwh] at hx; cases hx; rfl)
        (fun x hx => by rw [hwl] at hx; cases hx; rfl)
    have s3 : pyStrip isBacktick w = w :=
      pyStrip_eq_self
        (fun x hx => by rw [hwh] at hx; cases hx; rfl)
        (fun x hx => by rw [hwl] at hx; cases hx; rfl)
    unfold prepareJsonStr
    rw [s1, s2, s3, s1]

/-- C5 witness: a concrete fenced JSON object with surrounding whitespace. -/
theorem claim_C5_fence_strip_witness :
    prepareJsonStr ([' '] ++ "```json".toList ++ ['\n']
        ++ "\x7b\"title\": \"T\"\x7d".toList ++ ['\n'] ++ "```".toList ++ [' '])
      = "\x7b\"title\": \"T\"\x7d".toList
    ∧ prepareJsonStr "\x7b\"title\": \"T\"\x7d".toList = "\x7b\"title\": \"T\"\x7d".toList :=
  claim_C5_fence_strip [' '] ['\n'] ['\n'] [' '] "\x7b\"title\": \"T\"\x7d".toList
    (by decide) (by decide) (by decide) (by decide)
    (by decide) (by decide) (by decide)

/-- C6 counterexample: a non-string input (the integer 0) given to
`HasExactlyNSentences.validate` yields an ordinary
`FailResult("Input should be a string.")` — that is, a failed-validation
outcome, the very same constructor used for constraint failures — not a
distinct TypeMismatch error as the claim states. -/
theorem claim_C6_counterexample :
    hasExactlyNSentencesValidate 3 (PyValue.intVal 0)
      = ValidationResult.FailResult "Input should be a string.".toList
    ∧ (hasExactlyNSentencesValidate 3 (PyValue.intVal 0)).isFail = true := by
  decide

/-- C6 amended: for every non-string input the validator returns the
failed-validation outcome `FailResult("Input should be a string.")`; the
type mismatch is reported only through this fixed message, not through an
error kind distinct from failed validation. -/
theorem claim_C6_amended (n : Nat) (i : Int) :
    hasExactlyNSentencesValidate n (.intVal i)
      = .FailResult "Input should be a string.".toList
    ∧ hasExactlyNSentencesValidate n .noneVal
      = .FailResult "Input should be a string.".toList :=
  ⟨rfl, rfl⟩

/-- C7 counterexample: a response with the non-2xx HTTP status 300 and a
60-character body passes `raise_for_status()` (which raises only for
400-599) and is returned as content — the fetch does not fail on every
non-2xx status as the claim states. -/
theorem claim_C7_counterexample :
    toolRun ⟨false, 300, true, List.replicate 60 'a'⟩ = List.replicate 60 'a'
    ∧ startsWithMarker (toolRun ⟨false, 300, true, List.replicate 60 'a'⟩) = false
    ∧ ((300 : Nat) < 200 ∨ (299 : Nat) < 300) := by
  refine ⟨by decide, by decide, Or.inr (by decide)⟩

/-- C7 amended: the fetch fails (returns a `[Tool Error]` string, the
code's realisation of FetchError) on network error, on HTTP status 400-599
(`raise_for_status`), and whenever fewer than 50 non-whitespace-stripped
characters remain of the (truncated) content — in particular whenever
fewer than 50 characters of content were extracted; and any successfully
returned content is the extracted content truncated to at most 8000
characters. -/
theorem claim_C7_amended (w : ScrapeWorld) :
    ((w.netError = true ∨ (400 ≤ w.status ∧ w.status < 600)
        ∨ (pyStrip isPySpace (w.content.take 8000)).length < 50)
      → startsWithMarker (toolRun w) = true)
    ∧ (w.content.length < 50 → startsWithMarker (toolRun w) = true)
    ∧ (startsWithMarker (toolRun w) = false
      → toolRun w = w.content.take 8000 ∧ (toolRun w).length ≤ 8000) := by
  simp only [toolRun, toolRunTagged]
  split_ifs with h1 h2 h3 h4
  · exact ⟨fun _ => startsWithMarker_append _, fun _ => startsWithMarker_append _,
      fun hf => by simp [startsWithMarker_append] at hf⟩
  · exact ⟨fun _ => startsWithMarker_append _, fun _ => startsWithMarker_append _,
      fun hf => by simp [startsWithMarker_append] at hf⟩
  · exact ⟨fun _ => startsWithMarker_append _, fun _ => startsWithMarker_append _,
      fun hf => by simp [startsWithMarker_append] at hf⟩
  · exact ⟨fun _ => startsWithMarker_append _, fun _ => startsWithMarker_append _,
      fun hf => by simp [startsWithMarker_append] at hf⟩
  · refine ⟨?_, ?_, fun _ => ⟨rfl, ?_⟩⟩
    · intro hcond
      rcases hcond with hc | hc | hc
      · exact absurd hc h1
      · exact absurd (status_range_raises hc.1 hc.2) h2
      · exact absurd hc h4
    · intro hlen
      exact absurd (lt_of_le_of_lt
        (le_trans (pyStrip_length_le isPySpace (w.content.take 8000))
          (le_trans (by simp [List.length_take]) (Nat.le_refl w.content.length)))
        hlen) h4
    · simp [List.length_take]

/-- C7 witness: a network error yields the error marker; a successful
scrape of a 60-character body returns the truncated content within the
8000-character bound. -/
theorem claim_C7_amended_witness :
    startsWithMarker (toolRun ⟨true, 200, true, []⟩) = true
    ∧ (toolRun ⟨false, 200, true, List.replicate 60 'a'⟩
        = ((List.replicate 60 'a' : Str).take 8000)
      ∧ (toolRun ⟨false, 200, true, List.replicate 60 'a'⟩).length ≤ 8000) :=
  ⟨(claim_C7_amended ⟨true, 200, true, []⟩).1 (Or.inl rfl),
   (claim_C7_amended ⟨false, 200, true, List.replicate 60 'a'⟩).2.2 (by decide)⟩

/-- C8: the enum-membership validator (modelled from the spec; realised by
the external `ValidChoices` hub validator with `on_fail="reask"` in
`crew_nv3/main.py`) on allowed = {positivo, negativo, neutro} and field
value "misto" yields `failedRetryable` with a corrective hint that lists
each allowed value verbatim. -/
theorem claim_C8_enum_misto :
    enumMembershipCheck
        ["positivo".toList, "negativo".toList, "neutro".toList] "misto".toList
      = .failedRetryable
          "output must be exactly one of positivo, negativo, neutro; got misto".toList
          "output must be exactly one of positivo, negativo, neutro; got misto".toList
    ∧ "positivo".toList <:+:
        "output must be exactly one of positivo, negativo, neutro; got misto".toList
    ∧ "negativo".toList <:+:
        "output must be exactly one of positivo, negativo, neutro; got misto".toList
    ∧ "neutro".toList <:+:
        "output must be exactly one of positivo, negativo, neutro; got misto".toList := by
  decide

/-- C9: the Step Outcome Evaluator is idempotent: running it a second time
on the same raw text, starting from the validator states the first run
returned, yields the same outcome, and the first run leaves the validator
states unchanged (the validators are pure in the candidate text). -/
theorem claim_C9_idempotent (vs : List HasExactlyNSentencesObj) (raw : Str) :
    (evaluateStatefulStep vs raw).1
      = (evaluateStatefulStep (evaluateStatefulStep vs raw).2 raw).1
    ∧ (evaluateStatefulStep vs raw).2 = vs := by
  have hst : ∀ vs', (evaluateStatefulStep vs' raw).2 = vs' := by
    intro vs'
    unfold evaluateStatefulStep
    split
    · rfl
    · exact runStatefulChecks_state raw vs'
  exact ⟨by rw [hst vs], hst vs⟩

/-- C10 counterexample: a page whose extracted text itself begins with
"[Tool Error] " (and is long enough to pass the 50-character check) is
returned through the success path (`toolRunTagged` tag `false`), yet the
returned string begins with the error marker — refuting "a successful
return never begins with that prefix". -/
theorem claim_C10_counterexample :
    (toolRunTagged ⟨false, 200, true,
        "[Tool Error] ".toList ++ List.replicate 60 'a'⟩).1 = false
    ∧ startsWithMarker (toolRun ⟨false, 200, true,
        "[Tool Error] ".toList ++ List.replicate 60 'a'⟩) = true := by
  decide

/-- C10 amended: `_run` is total (every failure path, including the
catch-all handler, returns a string rather than raising); every
failure-path return begins with "[Tool Error]", and every success-path
return is exactly the scraped content truncated to 8000 characters — which
begins with "[Tool Error]" only when the page content itself does. -/
theorem claim_C10_amended (w : ScrapeWorld) :
    ((toolRunTagged w).1 = true → startsWithMarker (toolRun w) = true)
    ∧ ((toolRunTagged w).1 = false → toolRun w = w.content.take 8000) := by
  simp only [toolRun, toolRunTagged]
  split_ifs with h1 h2 h3 h4
  · exact ⟨fun _ => startsWithMarker_append _, fun h => by simp at h⟩
  · exact ⟨fun _ => startsWithMarker_append _, fun h => by simp at h⟩
  · exact ⟨fun _ => startsWithMarker_append _, fun h => by simp at h⟩
  · exact ⟨fun _ => startsWithMarker_append _, fun h => by simp at h⟩
  · exact ⟨fun h => by simp at h, fun _ => rfl⟩

/-- C10 witness: a network error returns a marker string; a successful
scrape returns the truncated content. -/
theorem claim_C10_amended_witness :
    startsWithMarker (toolRun ⟨true, 404, true, []⟩) = true
    ∧ toolRun ⟨false, 200, true, List.replicate 70 'b'⟩
      = ((List.replicate 70 'b' : Str).take 8000) :=
  ⟨(claim_C10_amended ⟨true, 404, true, []⟩).1 (by decide),
   (claim_C10_amended ⟨false, 200, true, List.replicate 70 'b'⟩).2 (by decide)⟩
